import Mathlib

/-!
Shallow embedding of the Tailspin Toys games backend
(`server/models/base.py`, `server/models/category.py`,
`server/routes/games.py`).

JSON / Python values are modelled by the inductive `PyVal`; a missing or
unparseable request body is `Option.none` at the handler entry.  The
persistence session is a pair of database snapshots: the committed state
and the session's current (possibly mutated, uncommitted) view.
-/

/-- A Python/JSON value as it travels through the request handlers. -/
inductive PyVal where
  | pynull
  | pybool (b : Bool)
  | pyint (n : Int)
  | pystr (s : String)
  | pylist (xs : List PyVal)
  | pydict (kvs : List (String × PyVal))

/-- The ASCII whitespace characters Python's `str.strip()` removes
(Unicode-only whitespace is not modelled). -/
def isPySpace (c : Char) : Bool :=
  c == ' ' || c == '\t' || c == '\n' || c == '\r' || c == '\x0b' || c == '\x0c'

/-- Python's `value.strip()`: drop leading and trailing whitespace. -/
def pyStrip (s : String) : String :=
  String.mk (((s.data.dropWhile isPySpace).reverse.dropWhile isPySpace).reverse)

/-- The function `BaseModel.validate_string_length` from `server/models/base.py`.
Python defaults are `min_length=2`, `allow_none=False`; callers in this
development always pass both explicitly. -/
def validate_string_length (field_name : String) (value : PyVal)
    (min_length : Nat) (allow_none : Bool) : Except String PyVal :=
  match value with
  | PyVal.pynull =>
      -- `if value is None: ...`
      if allow_none then Except.ok PyVal.pynull
      else Except.error (field_name ++ " cannot be empty")
  | PyVal.pystr s =>
      -- `if len(value.strip()) < min_length: ...` else `return value`
      if (pyStrip s).length < min_length then
        Except.error (field_name ++ " must be at least " ++ toString min_length ++ " characters")
      else Except.ok (PyVal.pystr s)
  | _ =>
      -- `if not isinstance(value, str): ...`
      Except.error (field_name ++ " must be a string")

/-- The Category entity (`server/models/category.py`).  `games` is the
one-to-many relationship collection; `Option.none` models an absent
(unloaded) collection, which Python's truthiness test also sends to 0. -/
structure Category where
  id : Int
  name : PyVal
  description : PyVal
  games : Option (List Int)

/-- The interceptor `Category.validate_name`: delegates to the base validator with field
name `'Category name'` and `min_length=2` (and Python's default
`allow_none=False`). -/
def Category.validate_name (name : PyVal) : Except String PyVal :=
  validate_string_length "Category name" name 2 false

/-- The interceptor `Category.validate_description`: delegates to the base validator with
field name `'Description'`, `min_length=10`, `allow_none=True`. -/
def Category.validate_description (description : PyVal) : Except String PyVal :=
  validate_string_length "Description" description 10 true

/-- Constructing `Category(name=..., description=...)`: the SQLAlchemy
`@validates` interceptors fire on each attribute assignment, so an
invalid value raises before any entity is produced (and hence before any
persistence attempt).  A fresh entity's relationship collection is empty. -/
def Category.make (id : Int) (name : PyVal) (description : PyVal) :
    Except String Category :=
  match Category.validate_name name with
  | Except.error e => Except.error e
  | Except.ok n =>
      match Category.validate_description description with
      | Except.error e => Except.error e
      | Except.ok d =>
          Except.ok { id := id, name := n, description := d, games := Option.some [] }

/-- Serialization `Category.to_dict`: the `game_count` entry is Python's
`len(self.games) if self.games else 0` (truthiness: both `None` and the
empty list give 0). -/
def Category.to_dict (c : Category) : PyVal :=
  PyVal.pydict
    [("id", PyVal.pyint c.id),
     ("name", c.name),
     ("description", c.description),
     ("game_count", PyVal.pyint (match c.games with
        | Option.some gs => if gs.isEmpty then 0 else (gs.length : Int)
        | Option.none => 0))]

/-- A Game row (`server/models/game.py` is not among the sources; the
column set is the one the route handlers read and write: `id`, `title`,
`description`, `star_rating`, `publisher_id`, `category_id`).  Field
values are stored as the Python values the handlers assigned. -/
structure Game where
  id : Int
  title : PyVal
  description : PyVal
  star_rating : PyVal
  publisher_id : PyVal
  category_id : PyVal

/-- The relational store: game rows plus the id columns of the publishers
and categories tables (only existence by id is ever consulted), and the
next surrogate key the store will assign to an inserted game. -/
structure DB where
  games : List Game
  publishers : List Int
  categories : List Int
  nextId : Int

/-- The request-scoped persistence session: the committed database and the
session's current working view (which carries uncommitted attribute
mutations made through ORM objects). -/
structure SessionState where
  committed : DB
  current : DB

/-- Session `db.session.rollback()`: discard the pending view. -/
def rollback (st : SessionState) : SessionState :=
  { committed := st.committed, current := st.committed }

/-- Session `db.session.commit()`: make the pending view durable. -/
def commitSession (st : SessionState) : SessionState :=
  { committed := st.current, current := st.current }

/-- An HTTP response as produced by `jsonify(...), status`. -/
structure HttpResponse where
  status : Nat
  body : PyVal

/-- Body `jsonify({"error": msg})`. -/
def errBody (msg : String) : PyVal := PyVal.pydict [("error", PyVal.pystr msg)]

/-- Body `jsonify({"message": msg})`. -/
def msgBody (msg : String) : PyVal := PyVal.pydict [("message", PyVal.pystr msg)]

/-- First value bound to key `k` in a Python dict literal. -/
def lookupKey (kvs : List (String × PyVal)) (k : String) : Option PyVal :=
  (kvs.find? (fun kv => kv.1 == k)).map (fun kv => kv.2)

/-- Membership `k in data` for a dict `data`. -/
def hasKey (kvs : List (String × PyVal)) (k : String) : Bool :=
  (lookupKey kvs k).isSome

/-- Subscript `data[k]` (used only under `k in data`), and also `data.get(k)`
(Python's `dict.get` returns `None` for an absent key). -/
def getKey (kvs : List (String × PyVal)) (k : String) : PyVal :=
  (lookupKey kvs k).getD PyVal.pynull

/-- The test `data is None or (isinstance(data, dict) and len(data) == 0)`
(lines 54 and 111 of `server/routes/games.py`). -/
def isNoData : PyVal → Bool
  | PyVal.pynull => true
  | PyVal.pydict kvs => kvs.isEmpty
  | _ => false

/-- Lookups `Publisher.query.get(v)` / `Category.query.get(v)`, reduced to the
existence test the handlers perform.  Modelled from the spec for the
Publisher side (the Publisher model is not among the sources; the spec
says it minimally supports an existence lookup by `id`): the lookup
succeeds exactly when `v` is an integer id present in the table. -/
def idExists (ids : List Int) (v : PyVal) : Bool :=
  match v with
  | PyVal.pyint n => ids.contains n
  | _ => false

/-- Lookup `Game.query.get(id)`: primary-key lookup in the session's view. -/
def findGame (games : List Game) (id : Int) : Option Game :=
  games.find? (fun g => g.id == id)

/-- Mutating an attribute of the ORM object with primary key `id`
(primary keys are unique, so exactly that row changes). -/
def setGameField (games : List Game) (id : Int) (f : Game → Game) : List Game :=
  games.map (fun g => if g.id == id then f g else g)

/-- Membership `'k' in data` when `data` is a Python list: element equality; a
string key can only equal a string element. -/
def listHasField (xs : List PyVal) (k : String) : Bool :=
  xs.any (fun v => match v with | PyVal.pystr s => s == k | _ => false)

/-- Membership `'k' in data` when `data` is a Python string: substring test. -/
def strHasField (s k : String) : Bool :=
  2 ≤ (s.splitOn k).length

/-- The SQL predicate `Game.publisher_id = Publisher.id` (resp. with
Category): the stored foreign-key value equals the joined row's integer id. -/
def fkMatches (fk : PyVal) (i : Int) : Bool :=
  match fk with
  | PyVal.pyint n => n == i
  | _ => false

/-- The rows of one side of a left outer join: all matching ids, or a
single null row when there is no match. -/
def joinMatches (ids : List Int) (fk : PyVal) : List (Option Int) :=
  if (ids.filter (fkMatches fk)).isEmpty then [Option.none]
  else (ids.filter (fkMatches fk)).map Option.some

/-- The result rows a single game contributes to the joined query
(`query(Game)` yields Game entities, one per join combination). -/
def joinRow (pubs cats : List Int) (g : Game) : List Game :=
  (joinMatches pubs g.publisher_id).flatMap (fun _ =>
    (joinMatches cats g.category_id).map (fun _ => g))

/-- The composer `get_games_base_query` (`server/routes/games.py`, lines 8-17):
Game left-outer-joined to Publisher on `Game.publisher_id = Publisher.id`
and left-outer-joined to Category on `Game.category_id = Category.id`. -/
def get_games_base_query (db : DB) : List Game :=
  db.games.flatMap (joinRow db.publishers db.categories)

/-- Modelled from the spec: the Game model's `to_dict` is not among the
sources; the spec fixes the serialized core fields
`{id, title, description, star_rating, publisher_id, category_id}` and
leaves the extra joined fields out of scope. -/
def Game.to_dict (g : Game) : PyVal :=
  PyVal.pydict
    [("id", PyVal.pyint g.id),
     ("title", g.title),
     ("description", g.description),
     ("star_rating", g.star_rating),
     ("publisher_id", g.publisher_id),
     ("category_id", g.category_id)]

/-- Route `GET /api/games` (lines 19-27): run the base query and serialize
every row. -/
def get_games (db : DB) : HttpResponse :=
  { status := 200, body := PyVal.pylist ((get_games_base_query db).map Game.to_dict) }

/-- Route `GET /api/games/<id>` (lines 29-41): base query filtered by id,
`first()`, 404 when falsy. -/
def get_game (db : DB) (id : Int) : HttpResponse :=
  match ((get_games_base_query db).filter (fun g => g.id == id)).head? with
  | Option.none => { status := 404, body := errBody "Game not found" }
  | Option.some g => { status := 200, body := Game.to_dict g }

/-- The fixed required-field order of `create_game` (line 57). -/
def requiredFields : List String := ["title", "description", "publisher_id", "category_id"]

/-- The test `field not in data or data[field] is None` for a dict payload. -/
def fieldMissing (kvs : List (String × PyVal)) (f : String) : Bool :=
  match lookupKey kvs f with
  | Option.none => true
  | Option.some PyVal.pynull => true
  | Option.some _ => false

/-- The first required field the loop at lines 58-60 rejects, if any. -/
def firstMissing (kvs : List (String × PyVal)) : Option String :=
  requiredFields.find? (fieldMissing kvs)

/-- The tail of `create_game` after a successful insert: commit, then
re-fetch the created row through the base query (lines 82-87).  A falsy
re-fetch would raise on `.to_dict()` and fall into the broad handler
(rollback, generic 500). -/
def createFinish (st' : SessionState) (newId : Int) : HttpResponse × SessionState :=
  match ((get_games_base_query st'.current).filter (fun g => g.id == newId)).head? with
  | Option.some cg => ({ status := 201, body := Game.to_dict cg }, st')
  | Option.none => ({ status := 500, body := errBody "Internal server error" }, rollback st')

/-- Route `POST /api/games` (`create_game`, lines 43-94).  The `Option.none`
payload is a body `request.get_json()` could not parse (400, line 51);
`PyVal.pynull` / the empty dict hit the no-data check at line 54.  For a
non-dict payload the required-field loop's `in` test either raises
`TypeError` (caught broadly: rollback and generic 500) or reports the
first field missing, exactly as in Python. -/
def create_game (st : SessionState) (payload : Option PyVal) : HttpResponse × SessionState :=
  match payload with
  | Option.none => ({ status := 400, body := errBody "No data provided" }, st)
  | Option.some data =>
  if isNoData data then ({ status := 400, body := errBody "No data provided" }, st)
  else
    match data with
    | PyVal.pydict kvs =>
        match firstMissing kvs with
        | Option.some f =>
            ({ status := 400, body := errBody ("Missing required field: " ++ f) }, st)
        | Option.none =>
            -- lines 62-70: publisher checked before category
            if idExists st.current.publishers (getKey kvs "publisher_id") then
              if idExists st.current.categories (getKey kvs "category_id") then
                -- lines 72-83: construct, add, commit
                let g : Game :=
                  { id := st.current.nextId,
                    title := getKey kvs "title",
                    description := getKey kvs "description",
                    star_rating := getKey kvs "star_rating",
                    publisher_id := getKey kvs "publisher_id",
                    category_id := getKey kvs "category_id" }
                let db' : DB :=
                  { st.current with games := st.current.games ++ [g], nextId := st.current.nextId + 1 }
                createFinish { committed := db', current := db' } g.id
              else ({ status := 404, body := errBody "Category not found" }, st)
            else ({ status := 404, body := errBody "Publisher not found" }, st)
    | PyVal.pylist xs =>
        -- `'title' in data` on a list: present → `data['title']` raises
        -- TypeError (500); absent → 400 missing title.
        if listHasField xs "title" then
          ({ status := 500, body := errBody "Internal server error" }, rollback st)
        else ({ status := 400, body := errBody "Missing required field: title" }, st)
    | PyVal.pystr s =>
        if strHasField s "title" then
          ({ status := 500, body := errBody "Internal server error" }, rollback st)
        else ({ status := 400, body := errBody "Missing required field: title" }, st)
    | _ =>
        -- `'title' in data` raises TypeError on a number or boolean
        ({ status := 500, body := errBody "Internal server error" }, rollback st)

/-- Lines 115-120 of `update_game`: the unconditional attribute
assignments for the keys present in the payload, in source order. -/
def applyBasicFields (db : DB) (id : Int) (kvs : List (String × PyVal)) : DB :=
  let db1 := if hasKey kvs "title" then
      { db with games := setGameField db.games id (fun g => { g with title := getKey kvs "title" }) }
    else db
  let db2 := if hasKey kvs "description" then
      { db1 with games := setGameField db1.games id (fun g => { g with description := getKey kvs "description" }) }
    else db1
  if hasKey kvs "star_rating" then
    { db2 with games := setGameField db2.games id (fun g => { g with star_rating := getKey kvs "star_rating" }) }
  else db2

/-- Lines 136-141 of `update_game`: commit, re-fetch through the base
query, serialize.  A falsy re-fetch would raise on `.to_dict()` and fall
into the broad handler (rollback, generic 500). -/
def updFinish (db : DB) (id : Int) : HttpResponse × SessionState :=
  let st' : SessionState := { committed := db, current := db }
  match ((get_games_base_query db).filter (fun g => g.id == id)).head? with
  | Option.some g => ({ status := 200, body := Game.to_dict g }, st')
  | Option.none => ({ status := 500, body := errBody "Internal server error" }, rollback st')

/-- Lines 129-134 of `update_game`: the category_id step (reached with
the session view already carrying the earlier assignments). -/
def updCategoryStep (st : SessionState) (db : DB) (id : Int)
    (kvs : List (String × PyVal)) : HttpResponse × SessionState :=
  if hasKey kvs "category_id" then
    if idExists db.categories (getKey kvs "category_id") then
      updFinish { db with games := setGameField db.games id (fun g => { g with category_id := getKey kvs "category_id" }) } id
    else ({ status := 404, body := errBody "Category not found" }, { st with current := db })
  else updFinish db id

/-- Route `PUT /api/games/<id>` (`update_game`, lines 96-148).  Note that the
two referential 404 returns (lines 126 and 133) respond directly: no
rollback runs on them, so the session keeps the attribute assignments
already made at lines 115-120. -/
def update_game (st : SessionState) (id : Int) (payload : Option PyVal) :
    HttpResponse × SessionState :=
  match findGame st.current.games id with
  | Option.none => ({ status := 404, body := errBody "Game not found" }, st)
  | Option.some _ =>
  match payload with
  | Option.none => ({ status := 400, body := errBody "No data provided" }, st)
  | Option.some data =>
  if isNoData data then ({ status := 400, body := errBody "No data provided" }, st)
  else
    match data with
    | PyVal.pydict kvs =>
        let db3 := applyBasicFields st.current id kvs
        -- lines 122-127: publisher_id step
        if hasKey kvs "publisher_id" then
          if idExists db3.publishers (getKey kvs "publisher_id") then
            updCategoryStep st
              { db3 with games := setGameField db3.games id (fun g => { g with publisher_id := getKey kvs "publisher_id" }) }
              id kvs
          else ({ status := 404, body := errBody "Publisher not found" }, { st with current := db3 })
        else updCategoryStep st db3 id kvs
    | PyVal.pylist xs =>
        -- a field-name element makes `data[key]` raise TypeError (500);
        -- otherwise every `in` test is False and the code falls through
        -- to commit and re-fetch.
        if listHasField xs "title" || listHasField xs "description" ||
           listHasField xs "star_rating" || listHasField xs "publisher_id" ||
           listHasField xs "category_id" then
          ({ status := 500, body := errBody "Internal server error" }, rollback st)
        else updFinish st.current id
    | PyVal.pystr s =>
        if strHasField s "title" || strHasField s "description" ||
           strHasField s "star_rating" || strHasField s "publisher_id" ||
           strHasField s "category_id" then
          ({ status := 500, body := errBody "Internal server error" }, rollback st)
        else updFinish st.current id
    | _ =>
        -- `'title' in data` raises TypeError on a number or boolean
        ({ status := 500, body := errBody "Internal server error" }, rollback st)

/-- Route `DELETE /api/games/<id>` (`delete_game`, lines 150-167): primary-key
lookup, 404 when absent; otherwise delete the row, commit, 200. -/
def delete_game (st : SessionState) (id : Int) : HttpResponse × SessionState :=
  match findGame st.current.games id with
  | Option.none => ({ status := 404, body := errBody "Game not found" }, st)
  | Option.some _ =>
      let db' : DB := { st.current with games := st.current.games.filter (fun g => !(g.id == id)) }
      ({ status := 200, body := msgBody "Game deleted successfully" },
       { committed := db', current := db' })

/-! ### Concrete sample states used by witnesses and counterexamples -/

/-- A stored game row with id 1 (references publisher 1 and category 1). -/
def sampleGame : Game :=
  { id := 1, title := PyVal.pystr "Old title",
    description := PyVal.pystr "Old description", star_rating := PyVal.pynull,
    publisher_id := PyVal.pyint 1, category_id := PyVal.pyint 1 }

/-- A committed database with one game, publisher 1 and category 1. -/
def sampleDB : DB :=
  { games := [sampleGame], publishers := [1], categories := [1], nextId := 2 }

/-- A fresh session over `sampleDB` (no pending mutations). -/
def sampleSession : SessionState := { committed := sampleDB, current := sampleDB }

/-- A game row whose publisher and category references are dangling. -/
def danglingGame : Game :=
  { id := 7, title := PyVal.pystr "Orphan", description := PyVal.pystr "No refs",
    star_rating := PyVal.pynull, publisher_id := PyVal.pyint 99,
    category_id := PyVal.pyint 98 }

/-- A database holding only `danglingGame`, with empty publisher and
category tables. -/
def danglingDB : DB :=
  { games := [danglingGame], publishers := [], categories := [], nextId := 8 }

/-! ### Helper lemmas about the composed join query -/

theorem exists_mem_joinMatches (ids : List Int) (fk : PyVal) :
    ∃ x, x ∈ joinMatches ids fk := by
  unfold joinMatches
  cases h : ids.filter (fkMatches fk) with
  | nil => simp [h]
  | cons a t => exact ⟨Option.some a, by simp [h]⟩

theorem eq_of_mem_joinRow (pubs cats : List Int) (g x : Game)
    (hx : x ∈ joinRow pubs cats g) : x = g := by
  simp only [joinRow, List.mem_flatMap, List.mem_map] at hx
  obtain ⟨a, _, b, _, h⟩ := hx
  exact h.symm

theorem self_mem_joinRow (pubs cats : List Int) (g : Game) :
    g ∈ joinRow pubs cats g := by
  obtain ⟨a, ha⟩ := exists_mem_joinMatches pubs g.publisher_id
  obtain ⟨b, hb⟩ := exists_mem_joinMatches cats g.category_id
  simp only [joinRow, List.mem_flatMap, List.mem_map]
  exact ⟨a, ha, b, hb, by trivial⟩

theorem mem_base_query_iff (db : DB) (g : Game) :
    g ∈ get_games_base_query db ↔ g ∈ db.games := by
  constructor
  · intro h
    simp only [get_games_base_query, List.mem_flatMap] at h
    obtain ⟨a, ha, hx⟩ := h
    rw [eq_of_mem_joinRow db.publishers db.categories a g hx]
    exact ha
  · intro h
    simp only [get_games_base_query, List.mem_flatMap]
    exact ⟨g, h, self_mem_joinRow db.publishers db.categories g⟩

theorem filter_head_flatMap_joinRow (p : Game → Bool) (pubs cats : List Int) :
    ∀ games : List Game,
      ((games.flatMap (joinRow pubs cats)).filter p).head? = games.find? p := by
  intro games
  induction games with
  | nil => rfl
  | cons g gs ih =>
    rw [List.flatMap_cons, List.filter_append]
    by_cases hp : p g = true
    · have hfil : (joinRow pubs cats g).filter p = joinRow pubs cats g := by
        apply List.filter_eq_self.mpr
        intro a ha
        rw [eq_of_mem_joinRow pubs cats g a ha]
        exact hp
      rw [hfil]
      cases hj : joinRow pubs cats g with
      | nil =>
          exact absurd (hj ▸ self_mem_joinRow pubs cats g) (List.not_mem_nil g)
      | cons x xs =>
          have hx : x = g :=
            eq_of_mem_joinRow pubs cats g x (by rw [hj]; exact List.mem_cons_self x xs)
          simp [List.find?, hp, hx]
    · have hfil : (joinRow pubs cats g).filter p = [] := by
        apply List.filter_eq_nil_iff.mpr
        intro a ha
        rw [eq_of_mem_joinRow pubs cats g a ha]
        simpa using hp
      rw [hfil, List.nil_append, ih]
      have hp' : p g = false := by simpa using hp
      simp [List.find?, hp']

theorem base_query_filter_head (db : DB) (p : Game → Bool) :
    ((get_games_base_query db).filter p).head? = db.games.find? p :=
  filter_head_flatMap_joinRow p db.publishers db.categories db.games

theorem base_query_find? (db : DB) (p : Game → Bool) :
    (get_games_base_query db).find? p = db.games.find? p := by
  rw [← List.filter_head? p (get_games_base_query db)]
  exact base_query_filter_head db p

theorem findGame_setGameField (games : List Game) (id : Int) (f : Game → Game)
    (hf : ∀ x, (f x).id = x.id) :
    findGame (setGameField games id f) id = (findGame games id).map f := by
  induction games with
  | nil => rfl
  | cons g gs ih =>
      by_cases h : (g.id == id) = true
      · have heq : g.id = id := by simpa using h
        have hfg : ((f g).id == id) = true := by rw [hf g]; exact h
        have hset : setGameField (g :: gs) id f = f g :: setGameField gs id f := by
          simp [setGameField, heq]
        simp only [findGame, hset]
        rw [@List.find?_cons_of_pos Game (fun x => x.id == id) (f g)
              (setGameField gs id f) hfg,
            @List.find?_cons_of_pos Game (fun x => x.id == id) g gs h]
        rfl
      · have heq : ¬ g.id = id := by simpa using h
        have hset : setGameField (g :: gs) id f = g :: setGameField gs id f := by
          simp [setGameField, heq]
        simp only [findGame, hset]
        rw [@List.find?_cons_of_neg Game (fun x => x.id == id) g
              (setGameField gs id f) h,
            @List.find?_cons_of_neg Game (fun x => x.id == id) g gs h]
        simp only [findGame] at ih
        exact ih

theorem applyBasicFields_publishers (db : DB) (id : Int)
    (kvs : List (String × PyVal)) :
    (applyBasicFields db id kvs).publishers = db.publishers := by
  by_cases h1 : hasKey kvs "title" <;> by_cases h2 : hasKey kvs "description" <;>
    by_cases h3 : hasKey kvs "star_rating" <;> simp [applyBasicFields, h1, h2, h3]

theorem applyBasicFields_categories (db : DB) (id : Int)
    (kvs : List (String × PyVal)) :
    (applyBasicFields db id kvs).categories = db.categories := by
  by_cases h1 : hasKey kvs "title" <;> by_cases h2 : hasKey kvs "description" <;>
    by_cases h3 : hasKey kvs "star_rating" <;> simp [applyBasicFields, h1, h2, h3]

theorem findGame_applyBasicFields (db : DB) (id : Int)
    (kvs : List (String × PyVal)) (g : Game)
    (hg : findGame db.games id = Option.some g) :
    findGame (applyBasicFields db id kvs).games id = Option.some
      { g with
        title := if hasKey kvs "title" then getKey kvs "title" else g.title,
        description := if hasKey kvs "description" then getKey kvs "description" else g.description,
        star_rating := if hasKey kvs "star_rating" then getKey kvs "star_rating" else g.star_rating } := by
  by_cases h1 : hasKey kvs "title" <;> by_cases h2 : hasKey kvs "description" <;>
    by_cases h3 : hasKey kvs "star_rating" <;>
      simp [applyBasicFields, h1, h2, h3, findGame_setGameField, hg]

/-! ### Claim theorems -/

/-- Claim C2: for every field name, candidate value, minimum length and
allow_none flag, the string validator returns an absent value unchanged
when absence is allowed; fails with "<field> cannot be empty" when the
value is absent and absence is not allowed; fails with "<field> must be
a string" when the value is present but not a string; fails with
"<field> must be at least <min> characters" when the trimmed length is
below the minimum; and otherwise returns the original untrimmed value
unchanged. -/
theorem C2_validate_string_length_spec (fn : String) (v : PyVal) (m : Nat) (an : Bool) :
    (v = PyVal.pynull → an = true → validate_string_length fn v m an = Except.ok v)
  ∧ (v = PyVal.pynull → an = false →
       validate_string_length fn v m an = Except.error (fn ++ " cannot be empty"))
  ∧ (v ≠ PyVal.pynull → (∀ s, v ≠ PyVal.pystr s) →
       validate_string_length fn v m an = Except.error (fn ++ " must be a string"))
  ∧ (∀ s, v = PyVal.pystr s → (pyStrip s).length < m →
       validate_string_length fn v m an =
         Except.error (fn ++ " must be at least " ++ toString m ++ " characters"))
  ∧ (∀ s, v = PyVal.pystr s → m ≤ (pyStrip s).length →
       validate_string_length fn v m an = Except.ok v) := by
  refine ⟨?_, ?_, ?_, ?_, ?_⟩
  · intro hv ha; subst hv; subst ha; rfl
  · intro hv ha; subst hv; subst ha; rfl
  · intro hnull hstr
    cases v with
    | pynull => exact absurd rfl hnull
    | pystr s => exact absurd rfl (hstr s)
    | pybool b => rfl
    | pyint n => rfl
    | pylist xs => rfl
    | pydict kvs => rfl
  · intro s hv hlt; subst hv
    simp [validate_string_length, hlt]
  · intro s hv hge; subst hv
    simp [validate_string_length, Nat.not_lt.mpr hge]

/-- Witness for C2: the five branches at concrete inputs. -/
theorem C2_validate_string_length_witness :
    validate_string_length "Title" PyVal.pynull 2 true = Except.ok PyVal.pynull
  ∧ validate_string_length "Title" PyVal.pynull 2 false =
      Except.error ("Title" ++ " cannot be empty")
  ∧ validate_string_length "Title" (PyVal.pyint 3) 2 true =
      Except.error ("Title" ++ " must be a string")
  ∧ validate_string_length "Title" (PyVal.pystr "  a  ") 2 false =
      Except.error ("Title" ++ " must be at least " ++ toString 2 ++ " characters")
  ∧ validate_string_length "Title" (PyVal.pystr " ab ") 2 false =
      Except.ok (PyVal.pystr " ab ") :=
  ⟨(C2_validate_string_length_spec "Title" PyVal.pynull 2 true).1 rfl rfl,
   (C2_validate_string_length_spec "Title" PyVal.pynull 2 false).2.1 rfl rfl,
   (C2_validate_string_length_spec "Title" (PyVal.pyint 3) 2 true).2.2.1
     (fun h => PyVal.noConfusion h) (fun s h => PyVal.noConfusion h),
   (C2_validate_string_length_spec "Title" (PyVal.pystr "  a  ") 2 false).2.2.2.1
     "  a  " rfl (by decide),
   (C2_validate_string_length_spec "Title" (PyVal.pystr " ab ") 2 false).2.2.2.2
     " ab " rfl (by decide)⟩

/-- Claim C6: Category field validation fires at assignment time with the
fixed parameters: `name` delegates with min_length=2 and
allow_none=false (null names and names shorter than 2 trimmed
characters, including all-whitespace, raise immediately with the
validator's message, before any entity exists to persist), and
`description` delegates with min_length=10 and allow_none=true (null
accepted, non-strings fail with the type message, short strings with the
length message). -/
theorem C6_category_assignment_validation :
    (∀ v, Category.validate_name v = validate_string_length "Category name" v 2 false)
  ∧ (Category.validate_name PyVal.pynull = Except.error "Category name cannot be empty")
  ∧ (∀ s, (pyStrip s).length < 2 →
       Category.validate_name (PyVal.pystr s) =
         Except.error "Category name must be at least 2 characters")
  ∧ (∀ v, Category.validate_description v = validate_string_length "Description" v 10 true)
  ∧ (Category.validate_description PyVal.pynull = Except.ok PyVal.pynull)
  ∧ (∀ v, v ≠ PyVal.pynull → (∀ s, v ≠ PyVal.pystr s) →
       Category.validate_description v = Except.error "Description must be a string")
  ∧ (∀ s, (pyStrip s).length < 10 →
       Category.validate_description (PyVal.pystr s) =
         Except.error "Description must be at least 10 characters")
  ∧ (∀ id n d e, Category.validate_name n = Except.error e →
       Category.make id n d = Except.error e)
  ∧ (∀ id n d n' e, Category.validate_name n = Except.ok n' →
       Category.validate_description d = Except.error e →
       Category.make id n d = Except.error e) := by
  refine ⟨fun v => rfl, rfl, ?_, fun v => rfl, rfl, ?_, ?_, ?_, ?_⟩
  · intro s h
    simp only [Category.validate_name, validate_string_length, if_pos h]
    exact congrArg Except.error (by decide)
  · intro v hnull hstr
    cases v with
    | pynull => exact absurd rfl hnull
    | pystr s => exact absurd rfl (hstr s)
    | pybool b => rfl
    | pyint n => rfl
    | pylist xs => rfl
    | pydict kvs => rfl
  · intro s h
    simp only [Category.validate_description, validate_string_length, if_pos h]
    exact congrArg Except.error (by decide)
  · intro id n d e h
    simp [Category.make, h]
  · intro id n d n' e h1 h2
    simp [Category.make, h1, h2]

/-- Witness for C6: all-whitespace name, short description, non-string
description, and the induced construction failures. -/
theorem C6_category_assignment_validation_witness :
    Category.validate_name (PyVal.pystr "   ") =
      Except.error "Category name must be at least 2 characters"
  ∧ Category.validate_description (PyVal.pyint 7) =
      Except.error "Description must be a string"
  ∧ Category.validate_description (PyVal.pystr "too short") =
      Except.error "Description must be at least 10 characters"
  ∧ Category.make 1 PyVal.pynull (PyVal.pystr "a long enough text") =
      Except.error "Category name cannot be empty"
  ∧ Category.make 1 (PyVal.pystr "Strategy") (PyVal.pystr "short") =
      Except.error "Description must be at least 10 characters" :=
  ⟨C6_category_assignment_validation.2.2.1 "   " (by decide),
   C6_category_assignment_validation.2.2.2.2.2.1 (PyVal.pyint 7)
     (fun h => PyVal.noConfusion h) (fun s h => PyVal.noConfusion h),
   C6_category_assignment_validation.2.2.2.2.2.2.1 "too short" (by decide),
   C6_category_assignment_validation.2.2.2.2.2.2.2.1 1 PyVal.pynull
     (PyVal.pystr "a long enough text") "Category name cannot be empty" rfl,
   C6_category_assignment_validation.2.2.2.2.2.2.2.2 1 (PyVal.pystr "Strategy")
     (PyVal.pystr "short") (PyVal.pystr "Strategy")
     "Description must be at least 10 characters" rfl rfl⟩

/-- Claim C9: `Category.to_dict` is the dictionary
`{id, name, description, game_count}` with `game_count` the size of the
related games collection (0 when it is empty or absent), and every valid
name/description pair constructs successfully with `game_count = 0` when
no games are attached. -/
theorem C9_category_to_dict (c : Category) :
    Category.to_dict c = PyVal.pydict
      [("id", PyVal.pyint c.id),
       ("name", c.name),
       ("description", c.description),
       ("game_count", PyVal.pyint (match c.games with
          | Option.some gs => (gs.length : Int)
          | Option.none => 0))]
  ∧ (c.games = Option.some [] ∨ c.games = Option.none →
       Category.to_dict c = PyVal.pydict
         [("id", PyVal.pyint c.id), ("name", c.name),
          ("description", c.description), ("game_count", PyVal.pyint 0)])
  ∧ (∀ id s d, 2 ≤ (pyStrip s).length →
       (d = PyVal.pynull ∨ ∃ t, d = PyVal.pystr t ∧ 10 ≤ (pyStrip t).length) →
       ∃ cat, Category.make id (PyVal.pystr s) d = Except.ok cat
         ∧ cat.games = Option.some []
         ∧ Category.to_dict cat = PyVal.pydict
             [("id", PyVal.pyint id), ("name", PyVal.pystr s),
              ("description", d), ("game_count", PyVal.pyint 0)]) := by
  refine ⟨?_, ?_, ?_⟩
  · unfold Category.to_dict
    cases h : c.games with
    | none => rfl
    | some gs =>
        cases gs with
        | nil => rfl
        | cons a t => rfl
  · intro h
    unfold Category.to_dict
    rcases h with h | h
    · rw [h]; rfl
    · rw [h]
  · intro id s d hs hd
    have hvn : Category.validate_name (PyVal.pystr s) = Except.ok (PyVal.pystr s) := by
      simp [Category.validate_name, validate_string_length, Nat.not_lt.mpr hs]
    have hvd : Category.validate_description d = Except.ok d := by
      rcases hd with h | ⟨t, ht, hlen⟩
      · rw [h]; rfl
      · rw [ht]
        simp [Category.validate_description, validate_string_length, Nat.not_lt.mpr hlen]
    refine ⟨{ id := id, name := PyVal.pystr s, description := d, games := Option.some [] }, ?_, rfl, rfl⟩
    simp [Category.make, hvn, hvd]

/-- Witness for C9: a concrete valid category with no games attached. -/
theorem C9_category_to_dict_witness :
    ∃ cat, Category.make 3 (PyVal.pystr "Strategy") (PyVal.pystr "Plan and conquer games") = Except.ok cat
      ∧ cat.games = Option.some []
      ∧ Category.to_dict cat = PyVal.pydict
          [("id", PyVal.pyint 3), ("name", PyVal.pystr "Strategy"),
           ("description", PyVal.pystr "Plan and conquer games"),
           ("game_count", PyVal.pyint 0)] :=
  (C9_category_to_dict
      { id := 3, name := PyVal.pystr "Strategy",
        description := PyVal.pystr "Plan and conquer games", games := Option.some [] }).2.2
    3 "Strategy" (PyVal.pystr "Plan and conquer games") (by decide)
    (Or.inr ⟨"Plan and conquer games", rfl, by decide⟩)

/-- Claim C3: an absent payload, a null payload and an empty JSON object
are all rejected with 400 "No data provided" by both create and update
(the latter on an existing game), with the session untouched — an
empty-object PUT body is never a zero-field no-op success. -/
theorem C3_empty_payload_rejected (st : SessionState) (id : Int) (g : Game)
    (hg : findGame st.current.games id = Option.some g) :
    create_game st Option.none =
      ({ status := 400, body := errBody "No data provided" }, st)
  ∧ create_game st (Option.some PyVal.pynull) =
      ({ status := 400, body := errBody "No data provided" }, st)
  ∧ create_game st (Option.some (PyVal.pydict [])) =
      ({ status := 400, body := errBody "No data provided" }, st)
  ∧ update_game st id Option.none =
      ({ status := 400, body := errBody "No data provided" }, st)
  ∧ update_game st id (Option.some PyVal.pynull) =
      ({ status := 400, body := errBody "No data provided" }, st)
  ∧ update_game st id (Option.some (PyVal.pydict [])) =
      ({ status := 400, body := errBody "No data provided" }, st) := by
  refine ⟨rfl, rfl, rfl, ?_, ?_, ?_⟩ <;> simp [update_game, hg, isNoData]

/-- Witness for C3 on the concrete sample session. -/
theorem C3_empty_payload_rejected_witness :
    create_game sampleSession Option.none =
      ({ status := 400, body := errBody "No data provided" }, sampleSession)
  ∧ create_game sampleSession (Option.some PyVal.pynull) =
      ({ status := 400, body := errBody "No data provided" }, sampleSession)
  ∧ create_game sampleSession (Option.some (PyVal.pydict [])) =
      ({ status := 400, body := errBody "No data provided" }, sampleSession)
  ∧ update_game sampleSession 1 Option.none =
      ({ status := 400, body := errBody "No data provided" }, sampleSession)
  ∧ update_game sampleSession 1 (Option.some PyVal.pynull) =
      ({ status := 400, body := errBody "No data provided" }, sampleSession)
  ∧ update_game sampleSession 1 (Option.some (PyVal.pydict [])) =
      ({ status := 400, body := errBody "No data provided" }, sampleSession) :=
  C3_empty_payload_rejected sampleSession 1 sampleGame rfl

/-- Characterization of the required-field loop: the reported field is
missing and is the first missing one in the fixed order. -/
theorem firstMissing_spec (kvs : List (String × PyVal)) (f : String)
    (hf : firstMissing kvs = Option.some f) :
    fieldMissing kvs f = true
  ∧ (f = "title"
     ∨ (f = "description" ∧ fieldMissing kvs "title" = false)
     ∨ (f = "publisher_id" ∧ fieldMissing kvs "title" = false
          ∧ fieldMissing kvs "description" = false)
     ∨ (f = "category_id" ∧ fieldMissing kvs "title" = false
          ∧ fieldMissing kvs "description" = false
          ∧ fieldMissing kvs "publisher_id" = false)) := by
  by_cases h1 : fieldMissing kvs "title" = true
  · simp only [firstMissing, requiredFields, List.find?, h1] at hf
    have hft : f = "title" := by
      injection hf with h
      exact h.symm
    subst hft
    exact ⟨h1, Or.inl rfl⟩
  · have h1' : fieldMissing kvs "title" = false := by simpa using h1
    by_cases h2 : fieldMissing kvs "description" = true
    · simp only [firstMissing, requiredFields, List.find?, h1', h2] at hf
      have hft : f = "description" := by
        injection hf with h
        exact h.symm
      subst hft
      exact ⟨h2, Or.inr (Or.inl ⟨rfl, h1'⟩)⟩
    · have h2' : fieldMissing kvs "description" = false := by simpa using h2
      by_cases h3 : fieldMissing kvs "publisher_id" = true
      · simp only [firstMissing, requiredFields, List.find?, h1', h2', h3] at hf
        have hft : f = "publisher_id" := by
          injection hf with h
          exact h.symm
        subst hft
        exact ⟨h3, Or.inr (Or.inr (Or.inl ⟨rfl, h1', h2'⟩))⟩
      · have h3' : fieldMissing kvs "publisher_id" = false := by simpa using h3
        by_cases h4 : fieldMissing kvs "category_id" = true
        · simp only [firstMissing, requiredFields, List.find?, h1', h2', h3', h4] at hf
          have hft : f = "category_id" := by
            injection hf with h
            exact h.symm
          subst hft
          exact ⟨h4, Or.inr (Or.inr (Or.inr ⟨rfl, h1', h2', h3'⟩))⟩
        · have h4' : fieldMissing kvs "category_id" = false := by simpa using h4
          simp [firstMissing, requiredFields, List.find?, h1', h2', h3', h4'] at hf

/-- Claim C4 counterexample: on a create payload missing `title`, the
handler does return a 400 naming `title`, but the message is
"Missing required field: title" (capital M), not the claimed
"missing required field: title". -/
theorem C4_counterexample :
    (create_game sampleSession
        (Option.some (PyVal.pydict [("description", PyVal.pystr "A description")]))).1
      = { status := 400, body := errBody "Missing required field: title" }
  ∧ "Missing required field: title" ≠ "missing required field: title" :=
  ⟨rfl, by decide⟩

/-- Claim C4 (amended): for every create payload (a non-empty dict) in
which at least one required field is missing or null, the handler
returns 400 with the message "Missing required field: <name>" naming
exactly the first such field in the fixed order title, description,
publisher_id, category_id, short-circuiting and performing no
referential check or write (the session is returned untouched). -/
theorem C4_first_missing_field (st : SessionState) (kvs : List (String × PyVal))
    (f : String) (hne : kvs ≠ []) (hf : firstMissing kvs = Option.some f) :
    create_game st (Option.some (PyVal.pydict kvs)) =
      ({ status := 400, body := errBody ("Missing required field: " ++ f) }, st)
  ∧ fieldMissing kvs f = true
  ∧ (f = "title"
     ∨ (f = "description" ∧ fieldMissing kvs "title" = false)
     ∨ (f = "publisher_id" ∧ fieldMissing kvs "title" = false
          ∧ fieldMissing kvs "description" = false)
     ∨ (f = "category_id" ∧ fieldMissing kvs "title" = false
          ∧ fieldMissing kvs "description" = false
          ∧ fieldMissing kvs "publisher_id" = false)) := by
  have hempty : kvs.isEmpty = false := by
    cases kvs with
    | nil => exact absurd rfl hne
    | cons a t => rfl
  obtain ⟨hmiss, horder⟩ := firstMissing_spec kvs f hf
  refine ⟨?_, hmiss, horder⟩
  simp [create_game, isNoData, hempty, hf]

/-- Witness for C4 (amended): a payload whose first missing required
field is `publisher_id`. -/
theorem C4_first_missing_field_witness :
    create_game sampleSession
        (Option.some (PyVal.pydict
          [("title", PyVal.pystr "T"), ("description", PyVal.pystr "D")])) =
      ({ status := 400,
         body := errBody ("Missing required field: " ++ "publisher_id") },
       sampleSession)
  ∧ fieldMissing [("title", PyVal.pystr "T"), ("description", PyVal.pystr "D")]
      "publisher_id" = true :=
  ⟨(C4_first_missing_field sampleSession
      [("title", PyVal.pystr "T"), ("description", PyVal.pystr "D")]
      "publisher_id" (fun h => List.noConfusion h) rfl).1,
   (C4_first_missing_field sampleSession
      [("title", PyVal.pystr "T"), ("description", PyVal.pystr "D")]
      "publisher_id" (fun h => List.noConfusion h) rfl).2.1⟩

/-- Claim C5: on a create payload with all four required fields present
and non-null, a non-existent publisher reference yields 404
"Publisher not found"; with an existing publisher, a non-existent
category reference yields 404 "Category not found".  The publisher check
comes first (when both are invalid the first conjunct applies and the
publisher 404 wins), and on either failure the session is returned
untouched, so no row is persisted. -/
theorem C5_create_referential_checks (st : SessionState)
    (kvs : List (String × PyVal)) (hne : kvs ≠ [])
    (hall : firstMissing kvs = Option.none) :
    (idExists st.current.publishers (getKey kvs "publisher_id") = false →
       create_game st (Option.some (PyVal.pydict kvs)) =
         ({ status := 404, body := errBody "Publisher not found" }, st))
  ∧ (idExists st.current.publishers (getKey kvs "publisher_id") = true →
     idExists st.current.categories (getKey kvs "category_id") = false →
       create_game st (Option.some (PyVal.pydict kvs)) =
         ({ status := 404, body := errBody "Category not found" }, st)) := by
  have hempty : kvs.isEmpty = false := by
    cases kvs with
    | nil => exact absurd rfl hne
    | cons a t => rfl
  constructor
  · intro hpub
    simp [create_game, isNoData, hempty, hall, hpub]
  · intro hpub hcat
    simp [create_game, isNoData, hempty, hall, hpub, hcat]

/-- Witness for C5: a payload referencing a missing publisher (both
references invalid: the publisher 404 wins) and one referencing a valid
publisher but a missing category. -/
theorem C5_create_referential_checks_witness :
    create_game sampleSession
        (Option.some (PyVal.pydict
          [("title", PyVal.pystr "T"), ("description", PyVal.pystr "D"),
           ("publisher_id", PyVal.pyint 9), ("category_id", PyVal.pyint 9)])) =
      ({ status := 404, body := errBody "Publisher not found" }, sampleSession)
  ∧ create_game sampleSession
        (Option.some (PyVal.pydict
          [("title", PyVal.pystr "T"), ("description", PyVal.pystr "D"),
           ("publisher_id", PyVal.pyint 1), ("category_id", PyVal.pyint 9)])) =
      ({ status := 404, body := errBody "Category not found" }, sampleSession) :=
  ⟨(C5_create_referential_checks sampleSession
      [("title", PyVal.pystr "T"), ("description", PyVal.pystr "D"),
       ("publisher_id", PyVal.pyint 9), ("category_id", PyVal.pyint 9)]
      (fun h => List.noConfusion h) rfl).1 rfl,
   (C5_create_referential_checks sampleSession
      [("title", PyVal.pystr "T"), ("description", PyVal.pystr "D"),
       ("publisher_id", PyVal.pyint 1), ("category_id", PyVal.pyint 9)]
      (fun h => List.noConfusion h) rfl).2 rfl rfl⟩

/-- Claim C7: the base query is Game left-outer-joined to Publisher and
Category, so every Game row — also one whose publisher or category
reference is dangling — still appears in the composed query (and nothing
else does), and the read paths are served from this single query: the
list endpoint serializes exactly its rows, and get-by-id answers from
its id-filtered first row (200 with the found row, 404 when the games
table has no such row). -/
theorem C7_base_query_left_joins (db : DB) :
    (∀ g, g ∈ db.games → g ∈ get_games_base_query db)
  ∧ (∀ g, g ∈ get_games_base_query db → g ∈ db.games)
  ∧ get_games db =
      { status := 200,
        body := PyVal.pylist ((get_games_base_query db).map Game.to_dict) }
  ∧ (∀ id g, db.games.find? (fun x => x.id == id) = Option.some g →
       get_game db id = { status := 200, body := Game.to_dict g })
  ∧ (∀ id, db.games.find? (fun x => x.id == id) = Option.none →
       get_game db id = { status := 404, body := errBody "Game not found" }) := by
  refine ⟨?_, ?_, rfl, ?_, ?_⟩
  · intro g hg
    exact (mem_base_query_iff db g).mpr hg
  · intro g hg
    exact (mem_base_query_iff db g).mp hg
  · intro id g h
    simp [get_game, base_query_find?, h]
  · intro id h
    simp [get_game, base_query_find?, h]

/-- Witness for C7: a game with dangling publisher and category
references is still produced by the query and served by get-by-id. -/
theorem C7_base_query_left_joins_witness :
    danglingGame ∈ get_games_base_query danglingDB
  ∧ get_game danglingDB 7 = { status := 200, body := Game.to_dict danglingGame } :=
  ⟨(C7_base_query_left_joins danglingDB).1 danglingGame (List.mem_singleton.mpr rfl),
   (C7_base_query_left_joins danglingDB).2.2.2.1 7 danglingGame rfl⟩

/-- Claim C8: deleting a non-existent id answers 404 "Game not found"
with the session untouched; deleting an existing id removes exactly that
row, commits (committed and current views agree), answers 200 with
{"message": "Game deleted successfully"}, and a subsequent get-by-id for
that id answers 404. -/
theorem C8_delete_game_spec (st : SessionState) (id : Int) :
    (findGame st.current.games id = Option.none →
       delete_game st id = ({ status := 404, body := errBody "Game not found" }, st))
  ∧ (∀ g, findGame st.current.games id = Option.some g →
       (delete_game st id).1 =
         { status := 200, body := msgBody "Game deleted successfully" }
     ∧ (delete_game st id).2.current.games =
         st.current.games.filter (fun x => !(x.id == id))
     ∧ (delete_game st id).2.committed = (delete_game st id).2.current
     ∧ get_game (delete_game st id).2.current id =
         { status := 404, body := errBody "Game not found" }) := by
  constructor
  · intro h
    simp [delete_game, h]
  · intro g h
    simp only [delete_game, h]
    refine ⟨by trivial, by trivial, by trivial, ?_⟩
    have hnone : (st.current.games.filter (fun x => !(x.id == id))).find?
        (fun x => x.id == id) = Option.none := by
      apply List.find?_eq_none.mpr
      intro x hx
      have hmem := (List.mem_filter.mp hx).2
      simp only [Bool.not_eq_true'] at hmem
      simp [hmem]
    simp [get_game, base_query_find?, hnone]

/-- Witness for C8: deleting the absent id 2 and the present id 1 in the
sample session. -/
theorem C8_delete_game_spec_witness :
    delete_game sampleSession 2 =
      ({ status := 404, body := errBody "Game not found" }, sampleSession)
  ∧ (delete_game sampleSession 1).1 =
      { status := 200, body := msgBody "Game deleted successfully" }
  ∧ get_game (delete_game sampleSession 1).2.current 1 =
      { status := 404, body := errBody "Game not found" } :=
  ⟨(C8_delete_game_spec sampleSession 2).1 rfl,
   ((C8_delete_game_spec sampleSession 1).2 sampleGame rfl).1,
   ((C8_delete_game_spec sampleSession 1).2 sampleGame rfl).2.2.2⟩

/-- Claim C10: the no-data rejection of `update_game` fires only on a
null payload or an empty dict; an empty-array payload passes it, no
field `in` test succeeds, so nothing is applied, the session is
committed, and the handler answers 200 with the unchanged serialized
game — a silent no-op success. -/
theorem C10_empty_array_update (st : SessionState) (id : Int) (g : Game)
    (hg : findGame st.current.games id = Option.some g) :
    isNoData (PyVal.pylist []) = false
  ∧ isNoData PyVal.pynull = true
  ∧ isNoData (PyVal.pydict []) = true
  ∧ update_game st id (Option.some (PyVal.pylist [])) =
      ({ status := 200, body := Game.to_dict g },
       { committed := st.current, current := st.current }) := by
  have hg' : st.current.games.find? (fun x => x.id == id) = Option.some g := hg
  refine ⟨?_, ?_, ?_, ?_⟩
  · rfl
  · rfl
  · rfl
  · simp [update_game, hg, isNoData, updFinish, listHasField, base_query_find?, hg']

/-- Witness for C10: the empty-array PUT on the sample session. -/
theorem C10_empty_array_update_witness :
    isNoData (PyVal.pylist []) = false
  ∧ isNoData PyVal.pynull = true
  ∧ isNoData (PyVal.pydict []) = true
  ∧ update_game sampleSession 1 (Option.some (PyVal.pylist [])) =
      ({ status := 200, body := Game.to_dict sampleGame },
       { committed := sampleSession.current, current := sampleSession.current }) :=
  C10_empty_array_update sampleSession 1 sampleGame rfl

/-- Claim C1 counterexample: on an existing game, a payload changing the
title together with a non-existent publisher_id gets the 404, but no
rollback is performed: after the handler returns, the session's current
view holds the new title while the committed view still holds the old
one — a pending field mutation is left on the session past the request
boundary. -/
theorem C1_counterexample :
    (update_game sampleSession 1 (Option.some (PyVal.pydict
        [("title", PyVal.pystr "New title"), ("publisher_id", PyVal.pyint 99)]))).1
      = { status := 404, body := errBody "Publisher not found" }
  ∧ (update_game sampleSession 1 (Option.some (PyVal.pydict
        [("title", PyVal.pystr "New title"), ("publisher_id", PyVal.pyint 99)]))).2.current.games.map
        (fun x => x.title) = [PyVal.pystr "New title"]
  ∧ (update_game sampleSession 1 (Option.some (PyVal.pydict
        [("title", PyVal.pystr "New title"), ("publisher_id", PyVal.pyint 99)]))).2.committed.games.map
        (fun x => x.title) = [PyVal.pystr "Old title"]
  ∧ (update_game sampleSession 1 (Option.some (PyVal.pydict
        [("title", PyVal.pystr "New title"), ("publisher_id", PyVal.pyint 99)]))).2.current
      ≠ (update_game sampleSession 1 (Option.some (PyVal.pydict
        [("title", PyVal.pystr "New title"), ("publisher_id", PyVal.pyint 99)]))).2.committed := by
  have hNew : (update_game sampleSession 1 (Option.some (PyVal.pydict
      [("title", PyVal.pystr "New title"), ("publisher_id", PyVal.pyint 99)]))).2.current.games.map
      (fun x => x.title) = [PyVal.pystr "New title"] := rfl
  have hOld : (update_game sampleSession 1 (Option.some (PyVal.pydict
      [("title", PyVal.pystr "New title"), ("publisher_id", PyVal.pyint 99)]))).2.committed.games.map
      (fun x => x.title) = [PyVal.pystr "Old title"] := rfl
  refine ⟨rfl, hNew, hOld, ?_⟩
  intro h
  rw [h, hOld] at hNew
  injection hNew with hhead htail
  injection hhead with hs
  exact absurd hs (by decide)

/-- Claim C1 (amended): for every update request on an existing game
whose payload contains a title or description change together with a
publisher_id (or category_id) that does not reference an existing row,
the handler responds 404 with the corresponding message but performs no
rollback before responding: the field mutations already applied at lines
115-120 — e.g. the already-assigned title — stay pending on the
session's current view past the request boundary (the committed view is
unchanged only because commit was never reached).  The first conjunct is
the dangling-publisher case (it also wins when both references are
dangling), the second the dangling-category case with the publisher key
absent or valid (then a pending publisher mutation is left as well), and
the third identifies the pending row carrying the applied title,
description and star_rating values. -/
theorem C1_update_referential_404_no_rollback (st : SessionState) (id : Int)
    (g : Game) (kvs : List (String × PyVal))
    (hg : findGame st.current.games id = Option.some g)
    (hchange : hasKey kvs "title" = true ∨ hasKey kvs "description" = true) :
    (hasKey kvs "publisher_id" = true →
     idExists st.current.publishers (getKey kvs "publisher_id") = false →
       update_game st id (Option.some (PyVal.pydict kvs)) =
         ({ status := 404, body := errBody "Publisher not found" },
          { committed := st.committed,
            current := applyBasicFields st.current id kvs }))
  ∧ ((hasKey kvs "publisher_id" = false ∨
        idExists st.current.publishers (getKey kvs "publisher_id") = true) →
     hasKey kvs "category_id" = true →
     idExists st.current.categories (getKey kvs "category_id") = false →
       update_game st id (Option.some (PyVal.pydict kvs)) =
         ({ status := 404, body := errBody "Category not found" },
          { committed := st.committed,
            current := (if hasKey kvs "publisher_id" = true then
               { (applyBasicFields st.current id kvs) with games :=
                   (setGameField (applyBasicFields st.current id kvs).games id
                     (fun x => { x with publisher_id := getKey kvs "publisher_id" })) }
             else applyBasicFields st.current id kvs) }))
  ∧ findGame (applyBasicFields st.current id kvs).games id = Option.some
      { g with
        title := if hasKey kvs "title" then getKey kvs "title" else g.title,
        description := if hasKey kvs "description" then getKey kvs "description" else g.description,
        star_rating := if hasKey kvs "star_rating" then getKey kvs "star_rating" else g.star_rating } := by
  have hne : kvs.isEmpty = false := by
    cases kvs with
    | nil =>
        rcases hchange with h | h
        · exact absurd h (by decide)
        · exact absurd h (by decide)
    | cons a t => rfl
  refine ⟨?_, ?_, findGame_applyBasicFields st.current id kvs g hg⟩
  · intro hpubkey hpubex
    simp [update_game, hg, isNoData, hne, hpubkey, applyBasicFields_publishers, hpubex]
  · intro hpub hcatkey hcatex
    by_cases hk : hasKey kvs "publisher_id" = true
    · have hex : idExists st.current.publishers (getKey kvs "publisher_id") = true := by
        rcases hpub with h | h
        · exact absurd hk (by simp [h])
        · exact h
      simp [update_game, hg, isNoData, hne, hk, hex, applyBasicFields_publishers,
        updCategoryStep, applyBasicFields_categories, hcatkey, hcatex]
    · simp [update_game, hg, isNoData, hne, hk, updCategoryStep,
        applyBasicFields_categories, hcatkey, hcatex]

/-- Witness for C1 (amended): a title change with a dangling category_id,
and a payload carrying title, description, star_rating and a dangling
publisher_id — the pending row keeps all three applied values. -/
theorem C1_update_referential_404_no_rollback_witness :
    update_game sampleSession 1 (Option.some (PyVal.pydict
        [("title", PyVal.pystr "New title"), ("category_id", PyVal.pyint 99)])) =
      ({ status := 404, body := errBody "Category not found" },
       { committed := sampleSession.committed,
         current := applyBasicFields sampleSession.current 1
           [("title", PyVal.pystr "New title"), ("category_id", PyVal.pyint 99)] })
  ∧ update_game sampleSession 1 (Option.some (PyVal.pydict
        [("title", PyVal.pystr "N2"), ("description", PyVal.pystr "D2"),
         ("star_rating", PyVal.pyint 5), ("publisher_id", PyVal.pyint 77)])) =
      ({ status := 404, body := errBody "Publisher not found" },
       { committed := sampleSession.committed,
         current := applyBasicFields sampleSession.current 1
           [("title", PyVal.pystr "N2"), ("description", PyVal.pystr "D2"),
            ("star_rating", PyVal.pyint 5), ("publisher_id", PyVal.pyint 77)] })
  ∧ findGame (applyBasicFields sampleSession.current 1
        [("title", PyVal.pystr "N2"), ("description", PyVal.pystr "D2"),
         ("star_rating", PyVal.pyint 5), ("publisher_id", PyVal.pyint 77)]).games 1 =
      Option.some { sampleGame with
                    title := PyVal.pystr "N2",
                    description := PyVal.pystr "D2",
                    star_rating := PyVal.pyint 5 } :=
  ⟨(C1_update_referential_404_no_rollback sampleSession 1 sampleGame
      [("title", PyVal.pystr "New title"), ("category_id", PyVal.pyint 99)]
      rfl (Or.inl rfl)).2.1 (Or.inl rfl) rfl rfl,
   (C1_update_referential_404_no_rollback sampleSession 1 sampleGame
      [("title", PyVal.pystr "N2"), ("description", PyVal.pystr "D2"),
       ("star_rating", PyVal.pyint 5), ("publisher_id", PyVal.pyint 77)]
      rfl (Or.inl rfl)).1 rfl rfl,
   (C1_update_referential_404_no_rollback sampleSession 1 sampleGame
      [("title", PyVal.pystr "N2"), ("description", PyVal.pystr "D2"),
       ("star_rating", PyVal.pyint 5), ("publisher_id", PyVal.pyint 77)]
      rfl (Or.inl rfl)).2.2⟩
